import Mathlib

/-!
# Verification of `tflearn/data_flow.py` (barhomi fork)

Shallow embedding of the batched data-feeding pipeline of
`src/tflearn/data_flow.py`.  The threaded pipeline is modelled as explicit
state passing: each Python method becomes a function `State → State × result`.
Queues are FIFO lists (a bounded queue's blocking behaviour carries no data,
so the element sequence is what we model).  The external coordinator is a
boolean field (`coord_should_stop`), polled where the source polls it.

The helper module `tflearn/utils.py` is not part of the source tree; the
helpers it provides (`make_batches`, `get_dict_first_element`, `slice_array`,
`make_balanced_batches`) are modelled from the spec, each marked
`Modelled from the spec:` in its doc comment.
-/

namespace DataFlowPy

/-- The value stored under a feed-dict key: an array-like, modelled as a list
of rows (only the leading dimension and 2-D row access matter here). -/
abbrev DArr := List (List Int)

/-- A feed dict: insertion-ordered mapping from placeholder name to data,
modelled as an association list (Python-2 `dict.values()` order is the
traversal order of this list). -/
abbrev FeedDict := List (String × DArr)

/-- Python list indexing: a negative index counts from the end
(`xs[-1]` is the last element); out-of-range indexing is an error (`none`). -/
def pyGet (xs : List α) (i : Int) : Option α :=
  if 0 ≤ i then xs.get? i.toNat
  else if 0 ≤ (xs.length : Int) + i then xs.get? ((xs.length : Int) + i).toNat
  else none

/-- Numpy fancy indexing `index_array[ind]` for a list of (non-negative)
positions: every position must be in range, else the whole access errors. -/
def npTake (xs : List Nat) (ps : List Nat) : Option (List Nat) :=
  ps.mapM (fun p => xs.get? p)

/-- `np.argmax` over one row: index of the first occurrence of the maximum;
errors on an empty row. -/
def argmaxAux : List Int → Int → Nat → Nat → Nat
  | [], _, best, _ => best
  | x :: rest, bv, best, i =>
    if bv < x then argmaxAux rest x i (i + 1) else argmaxAux rest bv best (i + 1)

/-- `row.argmax()` along the last axis, for a single row. -/
def argmaxRow : List Int → Option Nat
  | [] => none
  | x :: rest => some (argmaxAux rest x 0 1)

/-- Modelled from the spec: `utils.make_batches(n_samples, batch_size)` is not
under `src/`; per the spec it is a "deterministic contiguous partition of
`[0, n_samples)` into fixed-size ranges, last range possibly shorter", each
batch being "an ordered sequence of positions into SampleIndexArray". -/
def make_batches (n_samples batch_size : Nat) : List (List Nat) :=
  (List.range ((n_samples + batch_size - 1) / batch_size)).map
    (fun i => (List.range (min batch_size (n_samples - i * batch_size))).map
      (fun j => i * batch_size + j))

/-- Modelled from the spec: `utils.slice_array(arr, ids)` is not under `src/`;
per the spec the dataset "must expose a slice-by-index-batch operation":
row selection by index, erroring on an out-of-range index. -/
def slice_array (arr : DArr) (ids : List Nat) : Option DArr :=
  ids.mapM (fun i => arr.get? i)

/-- `DataFlowStatus.__init__` (data_flow.py:294-299). -/
structure DataFlowStatus where
  step : Nat
  epoch : Nat
  current_iter : Nat
  batch_size : Nat
  n_samples : Nat
deriving DecidableEq

/-- `DataFlowStatus.update` (data_flow.py:301-307): `step += 1`;
`current_iter = min(step * batch_size, n_samples)`; on a full epoch,
`epoch += 1` and `step = 0`. -/
def DataFlowStatus.update (st : DataFlowStatus) : DataFlowStatus :=
  let step := st.step + 1
  let current_iter := min (step * st.batch_size) st.n_samples
  if current_iter = st.n_samples then
    { st with step := 0, epoch := st.epoch + 1, current_iter := current_iter }
  else
    { st with step := step, current_iter := current_iter }

/-- `DataFlowStatus.reset` (data_flow.py:309-311): zeroes `step` and `epoch`
and touches nothing else. -/
def DataFlowStatus.reset (st : DataFlowStatus) : DataFlowStatus :=
  { st with step := 0, epoch := 0 }

/-- The whole mutable state of a `FeedDictFlow` instance, together with the
two queues and the external coordinator's stop flag.  `dprep_dict` and
`daug_dict` are `None` in this embedding (their `if` guards in the worker are
then skipped), matching the constructor defaults.  `rng` is the entropy
consumed by `np.random.shuffle` (an external collaborator), modelled as a
stream of replacement index arrays; `balanced_plan_src` likewise models
`utils.make_balanced_batches`, whose stratification policy the spec leaves
open (§9), as an externally supplied plan stream. -/
structure State where
  feed_dict : FeedDict
  batch_size : Nat
  num_threads : Nat
  max_queue : Nat
  shuffle : Bool
  continuous : Bool
  balanced_classes : Bool
  interrupted : Bool
  coord_should_stop : Bool
  n_samples : Nat
  index_array : List Nat
  batches : List (List Nat)
  batch_index : Int
  batch_ids_queue : List (Option (List Nat))
  feed_dict_queue : List (Option FeedDict)
  data_status : DataFlowStatus
  rng : List (List Nat)
  balanced_plan_src : List (List (List Nat))
deriving DecidableEq

/-- `FeedDictFlow.shuffle_samples` (data_flow.py:259-260): `np.random.shuffle`
draws from the global RNG (external collaborator); modelled as consuming the
head of the entropy stream `rng`. -/
def State.shuffle_samples (s : State) : State :=
  { s with index_array := s.rng.headD s.index_array, rng := s.rng.drop 1 }

/-- `FeedDictFlow.make_batches` (data_flow.py:249-250). -/
def State.make_batches (s : State) : List (List Nat) :=
  DataFlowPy.make_batches s.n_samples s.batch_size

/-- `FeedDictFlow.make_balanced_batches` (data_flow.py:252-257).  Modelled
from the spec: `utils.make_balanced_batches` is not under `src/` and its
stratification policy is an open design choice (spec §9); modelled as taking
the next plan from the external stream `balanced_plan_src`. -/
def State.make_balanced_batches (s : State) : State × List (List Nat) :=
  ({ s with balanced_plan_src := s.balanced_plan_src.drop 1 },
   s.balanced_plan_src.headD s.batches)

/-- `FeedDictFlow.reset_batches` (data_flow.py:235-240): reshuffle and
regenerate only when `shuffle` is set; always rewind the cursor to `-1`. -/
def State.reset_batches (s : State) : State :=
  let s := if s.shuffle then
    let s := s.shuffle_samples
    { s with batches := s.make_batches }
  else s
  { s with batch_index := -1 }

/-- `FeedDictFlow.reset_balanced_batches` (data_flow.py:242-247). -/
def State.reset_balanced_batches (s : State) : State :=
  let s := if s.shuffle then
    let s := s.shuffle_samples
    let (s, bs) := s.make_balanced_batches
    { s with batches := bs }
  else s
  { s with batch_index := -1 }

/-- `FeedDictFlow.stop` (data_flow.py:160-170): push one `False` sentinel per
worker onto the batch-ids queue.  The thread it spawns is modelled separately
as `wait_for_threads`. -/
def State.stop (s : State) : State :=
  { s with batch_ids_queue :=
      s.batch_ids_queue ++ List.replicate s.num_threads none }

/-- `FeedDictFlow.wait_for_threads` (data_flow.py:262-266): after joining all
threads, push the single terminal `False` sentinel onto the feed-dict queue. -/
def State.wait_for_threads (s : State) : State :=
  { s with feed_dict_queue := s.feed_dict_queue ++ [none] }

/-- `FeedDictFlow.reset` (data_flow.py:172-177): only rewinds the cursor. -/
def State.reset (s : State) : State :=
  { s with batch_index := -1 }

/-- `FeedDictFlow.clear_queues` (data_flow.py:268-277): drain both queues. -/
def State.clear_queues (s : State) : State :=
  { s with feed_dict_queue := [], batch_ids_queue := [] }

/-- `FeedDictFlow.interrupt` (data_flow.py:179-182): raise the interrupt flag,
then drain both queues. -/
def State.interrupt (s : State) : State :=
  ({ s with interrupted := true }).clear_queues

/-- `FeedDictFlow.start` (data_flow.py:136-158) minus thread spawning (thread
bodies are modelled as the step functions below): drain queues, clear the
interrupt flag, optionally reset the status.  Note it does not touch
`batch_index`. -/
def State.start (reset_status : Bool) (s : State) : State :=
  let s := s.clear_queues
  let s := { s with interrupted := false }
  if reset_status then { s with data_status := s.data_status.reset } else s

/-- Result of one `next_batch_ids` call: the `False` sentinel, a batch of
sample ids, or a raised exception (out-of-range list/array indexing). -/
inductive BRes where
  | sentinel
  | ids (xs : List Nat)
  | err
deriving DecidableEq

/-- The tail of `next_batch_ids` (data_flow.py:225-226):
`ind = np.array(self.batches[self.batch_index]); return self.index_array[ind]`.
Python list indexing (negative allowed) followed by numpy fancy indexing. -/
def State.emitCurrent (s : State) : State × BRes :=
  match pyGet s.batches s.batch_index with
  | none => (s, .err)
  | some b =>
    match npTake s.index_array b with
    | none => (s, .err)
    | some ids => (s, .ids ids)

/-- `FeedDictFlow.next_batch_ids` (data_flow.py:211-226): advance the cursor;
at the end of the plan either stop (returning the `False` sentinel) or, in
continuous mode, reset the plan (cursor back to `-1`) and fall through to the
emission of `batches[batch_index]`. -/
def State.next_batch_ids (s : State) : State × BRes :=
  let s := { s with batch_index := s.batch_index + 1 }
  if s.batch_index = (s.batches.length : Int) then
    if !s.continuous then
      (s.stop, .sentinel)
    else
      let s := if s.balanced_classes then s.reset_balanced_batches
               else s.reset_batches
      s.emitCurrent
  else
    s.emitCurrent

/-- One iteration of the index-producer loop can: exit (loop guard false, or
the `False` sentinel from `next_batch_ids`), enqueue a batch of ids, or crash
with an uncaught exception (the `labels` line or the `assert`). -/
inductive PAct where
  | exit
  | put (ids : List Nat)
  | crash
deriving DecidableEq

/-- The `labels` line of the producer (data_flow.py:206):
`self.feed_dict.values()[1][ids].argmax(1)` — Python-2 subscript of the
values list at 1, numpy row selection by `ids`, per-row argmax.  Any failure
(fewer than two values, out-of-range id, or an empty row) is an exception. -/
def State.producerLabels (s : State) (ids : List Nat) : Option (List Nat) :=
  match (s.feed_dict.map Prod.snd).get? 1 with
  | none => none
  | some arr =>
    match ids.mapM (fun i => arr.get? i) with
    | none => none
    | some rows => rows.mapM argmaxRow

/-- One iteration of `FeedDictFlow.fill_batch_ids_queue` (data_flow.py:201-209):
poll the loop guard, take the next batch ids, compute the (unused) `labels`,
assert the batch is full-size, and enqueue the ids. -/
def State.fill_batch_ids_queue_step (s : State) : State × PAct :=
  if s.coord_should_stop || s.interrupted then (s, .exit)
  else
    match s.next_batch_ids with
    | (s, .sentinel) => (s, .exit)
    | (s, .err) => (s, .crash)
    | (s, .ids ids) =>
      match s.producerLabels ids with
      | none => (s, .crash)
      | some _ =>
        if ids.length = s.batch_size then
          ({ s with batch_ids_queue := s.batch_ids_queue ++ [some ids] },
           .put ids)
        else (s, .crash)

/-- One iteration of a transform worker can: exit, push a processed feed
batch, block on an empty queue, or crash on a bad index. -/
inductive WAct where
  | exit
  | pushed (fb : FeedDict)
  | blocked
  | crash
deriving DecidableEq

/-- `FeedDictFlow.retrieve_data` (data_flow.py:228-233): slice every key of
the feed dict by the batch ids. -/
def State.retrieve_data (s : State) (batch_ids : List Nat) : Option FeedDict :=
  s.feed_dict.mapM (fun kv => (slice_array kv.2 batch_ids).map (fun a => (kv.1, a)))

/-- One iteration of `FeedDictFlow.fill_feed_dict_queue` (data_flow.py:184-199)
with `daug_dict` and `dprep_dict` at their `None` defaults (both `if` bodies
skipped): poll the loop guard, pop the batch-ids queue (blocking when empty),
exit on the `False` sentinel, otherwise slice the data and push it. -/
def State.fill_feed_dict_queue_step (s : State) : State × WAct :=
  if s.coord_should_stop || s.interrupted then (s, .exit)
  else
    match s.batch_ids_queue with
    | [] => (s, .blocked)
    | item :: rest =>
      let s := { s with batch_ids_queue := rest }
      match item with
      | none => (s, .exit)
      | some ids =>
        match s.retrieve_data ids with
        | none => (s, .crash)
        | some fb =>
          ({ s with feed_dict_queue := s.feed_dict_queue ++ [some fb] },
           .pushed fb)

/-- What one `next(timeout)` call hands back to the consumer: a timeout (the
queue stayed empty), the terminal `False` sentinel, or a processed batch. -/
inductive NextRes where
  | timeout
  | sentinel
  | batch (fb : FeedDict)
deriving DecidableEq

/-- `FeedDictFlow.next` (data_flow.py:124-134): `self.data_status.update()`
runs first, unconditionally; only then is the feed-dict queue read (a pop, a
`False` sentinel, or — when nothing arrives — an `Empty`/timeout error). -/
def State.next (s : State) : State × NextRes :=
  let s := { s with data_status := s.data_status.update }
  match s.feed_dict_queue with
  | [] => (s, .timeout)
  | none :: rest => ({ s with feed_dict_queue := rest }, .sentinel)
  | some fb :: rest => ({ s with feed_dict_queue := rest }, .batch fb)

/-- Construction-time failure. -/
inductive ConfigError where
  | emptyFeedDict
  | mismatchedLengths
deriving DecidableEq

/-- Modelled from the spec: `utils.get_dict_first_element` is not under
`src/`; per the spec the constructor's dataset handling "fails if keys
disagree on leading dimension" (ConfigurationError, "detected at
construction, fails fast"), otherwise the first value is returned and its
length becomes `n_samples`. -/
def get_dict_first_element (fd : FeedDict) : Except ConfigError DArr :=
  match fd with
  | [] => .error .emptyFeedDict
  | (_, v) :: rest =>
    if rest.all (fun kv => kv.2.length = v.length) then .ok v
    else .error .mismatchedLengths

/-- `FeedDictFlow.__init__` (data_flow.py:87-122) for the uniform
(`balanced_classes=False`) and balanced modes, with `dprep_dict`/`daug_dict`
at their `None` defaults: `ensure_data_order` forces one thread and a queue
of one; `n_samples` comes from the first feed-dict value; the index array is
`arange(n_samples)` unless a subset is supplied; the plan is built and the
cursor rewound by `reset_batches`/`reset_balanced_batches`; the status starts
zeroed. -/
def feedDictFlowMk (fd : FeedDict) (batch_size : Nat) (num_threads : Nat)
    (max_queue : Nat) (shuffle continuous ensure_data_order balanced : Bool)
    (index_array : Option (List Nat)) (rng : List (List Nat))
    (bps : List (List (List Nat))) : Except ConfigError State := do
  let nt := if ensure_data_order then 1 else num_threads
  let mq := if ensure_data_order then 1 else max_queue
  let first ← get_dict_first_element fd
  let n0 := first.length
  let ia := match index_array with
    | none => List.range n0
    | some a => a
  let n := match index_array with
    | none => n0
    | some a => a.length
  let s : State :=
    { feed_dict := fd, batch_size := batch_size, num_threads := nt,
      max_queue := mq, shuffle := shuffle, continuous := continuous,
      balanced_classes := balanced, interrupted := false,
      coord_should_stop := false, n_samples := n, index_array := ia,
      batches := [], batch_index := 0, batch_ids_queue := [],
      feed_dict_queue := [],
      data_status :=
        { step := 0, epoch := 0, current_iter := 0,
          batch_size := batch_size, n_samples := n },
      rng := rng, balanced_plan_src := bps }
  if balanced then
    let (s, bs) := s.make_balanced_batches
    return ({ s with batches := bs }).reset_balanced_batches
  else
    return ({ s with batches := s.make_batches }).reset_batches

/-- The value `next_batch_ids` hands back when the cursor sits on batch `b`
of the plan: the batch mapped through the sample index array, or an indexing
error. -/
def emitOf (ia : List Nat) (b : List Nat) : BRes :=
  match npTake ia b with
  | none => .err
  | some ids => .ids ids

/-- Iterate `next_batch_ids`, collecting the results in order. -/
def runProducerIds : State → Nat → State × List BRes
  | s, 0 => (s, [])
  | s, k + 1 =>
    let (s', r) := s.next_batch_ids
    let (s'', rs) := runProducerIds s' k
    (s'', r :: rs)

/-- Iterate the full producer-loop body, collecting its actions in order. -/
def runProducerLoop : State → Nat → State × List PAct
  | s, 0 => (s, [])
  | s, k + 1 =>
    let (s', r) := s.fill_batch_ids_queue_step
    let (s'', rs) := runProducerLoop s' k
    (s'', r :: rs)

/-- A placeholder state used only to destructure `Except` results of
`feedDictFlowMk` in concrete examples. -/
def dummyState : State :=
  { feed_dict := [], batch_size := 0, num_threads := 0, max_queue := 0,
    shuffle := false, continuous := false, balanced_classes := false,
    interrupted := false, coord_should_stop := false, n_samples := 0,
    index_array := [], batches := [], batch_index := 0,
    batch_ids_queue := [], feed_dict_queue := [],
    data_status := { step := 0, epoch := 0, current_iter := 0,
                     batch_size := 0, n_samples := 0 },
    rng := [], balanced_plan_src := [] }

/-- Extract the state of a successful construction (examples only). -/
def mkOr (e : Except ConfigError State) : State :=
  match e with
  | .ok s => s
  | .error _ => dummyState

/-- The spec's end-of-stream example dataset: two keys, ten rows each. -/
def exFeedDict10 : FeedDict :=
  [("X", (List.range 10).map (fun i => [(i : Int)])),
   ("Y", List.replicate 10 [1, 0])]

/-- The spec's end-of-stream example pipeline: `n_samples=10`, `batch_size=4`,
`continuous=false`, shuffling disabled. -/
def exFlow10 : State :=
  mkOr (feedDictFlowMk exFeedDict10 4 8 32 false false false false none [] [])

/-- A continuous-mode pipeline with two singleton batches `[[0], [1]]`. -/
def exContFeedDict : FeedDict :=
  [("X", [[0], [1]]), ("Y", [[1, 0], [0, 1]])]

/-- Continuous-mode example: `batch_size=1` over two samples, so the plan is
`[[0], [1]]` with two batches per epoch. -/
def exContFlow : State :=
  mkOr (feedDictFlowMk exContFeedDict 1 8 32 false true false false none [] [])

/-- A pipeline whose feed dict has a single key (no second value). -/
def exOneKeyFlow : State :=
  mkOr (feedDictFlowMk [("X", [[0], [1], [2]])] 1 8 32 false false false false
    none [] [])

/-- A feed dict whose two keys disagree on the leading dimension. -/
def exMismatchedFeedDict : FeedDict :=
  [("X", [[0]]), ("Y", [[1], [2]])]

/-- The end-of-stream example pipeline after some unrelated churn: the cursor
moved, the interrupt flag raised, a sentinel parked in the index queue — but
the same plan and index array. -/
def exReplayAlt : State :=
  { exFlow10 with
      batch_index := 2
      interrupted := true
      batch_ids_queue := [none] }

/-- A small state with one worker thread and empty queues, used to exercise
the lifecycle operations concretely. -/
def exLifecycleState : State :=
  { dummyState with
      num_threads := 1
      batch_size := 4
      n_samples := 10
      data_status := { step := 0, epoch := 0, current_iter := 0,
                       batch_size := 4, n_samples := 10 } }

/-! ## Theorems -/

/-- C3: for every status state and every positive `batch_size` and
`n_samples`, one `update()` call sets `step` to `step+1`, sets `current_iter`
to `min((step+1) * batch_size, n_samples)`, and exactly when that value equals
`n_samples` it additionally increments `epoch` and resets `step` to `0`;
otherwise `epoch` is unchanged.  `batch_size` and `n_samples` themselves are
untouched. -/
theorem C3_update_step_epoch (st : DataFlowStatus)
    (hb : 0 < st.batch_size) (hn : 0 < st.n_samples) :
    st.update.current_iter = min ((st.step + 1) * st.batch_size) st.n_samples ∧
    (if min ((st.step + 1) * st.batch_size) st.n_samples = st.n_samples then
        st.update.epoch = st.epoch + 1 ∧ st.update.step = 0
      else
        st.update.epoch = st.epoch ∧ st.update.step = st.step + 1) ∧
    st.update.batch_size = st.batch_size ∧
    st.update.n_samples = st.n_samples := by
  unfold DataFlowStatus.update
  by_cases h : min ((st.step + 1) * st.batch_size) st.n_samples = st.n_samples <;>
    simp [h]

/-- Witness for C3 at the concrete status
`(step, epoch, current_iter, batch_size, n_samples) = (0, 0, 0, 4, 10)`. -/
theorem C3_update_step_epoch_witness :
    (0 : Nat) < 4 ∧ (0 : Nat) < 10 ∧
    (DataFlowStatus.update
      { step := 0, epoch := 0, current_iter := 0,
        batch_size := 4, n_samples := 10 }).current_iter = min ((0 + 1) * 4) 10 :=
  ⟨by decide, by decide,
    (C3_update_step_epoch
      { step := 0, epoch := 0, current_iter := 0,
        batch_size := 4, n_samples := 10 } (by decide) (by decide)).1⟩

/-- C10: `DataFlowStatus.reset` zeroes `step` and `epoch` and leaves
`current_iter`, `batch_size` and `n_samples` unchanged. -/
theorem C10_reset_frame (st : DataFlowStatus) :
    st.reset.step = 0 ∧ st.reset.epoch = 0 ∧
    st.reset.current_iter = st.current_iter ∧
    st.reset.batch_size = st.batch_size ∧
    st.reset.n_samples = st.n_samples := by
  unfold DataFlowStatus.reset
  exact ⟨rfl, rfl, rfl, rfl, rfl⟩

/-- C4 counterexample: on a pipeline with an empty data queue, a `next()`
call that fails with the timeout still mutates the status (the source calls
`data_status.update()` before reading the queue), refuting the claim that a
timed-out `next()` leaves `(step, epoch, current_iter)` unchanged. -/
theorem C4_counterexample :
    (exLifecycleState.next).2 = NextRes.timeout ∧
    (exLifecycleState.next).1.data_status ≠ exLifecycleState.data_status := by
  decide

/-- C4 amended: `data_status.update()` runs unconditionally at the start of
every `next()` call, before the queue is read, so timed-out and
sentinel-returning calls advance the status exactly like successful ones. -/
theorem C4_update_unconditional (s : State) :
    (s.next).1.data_status = s.data_status.update := by
  unfold State.next
  cases h : s.feed_dict_queue with
  | nil => rfl
  | cons a rest => cases a <;> rfl

/-- C6 counterexample: `stop()` is not idempotent — on a one-worker pipeline
with empty queues, two `stop()` calls leave two sentinels on the index queue
where one call leaves one, refuting the claim that `stop`, `interrupt` and
`reset` are each idempotent. -/
theorem C6_counterexample :
    exLifecycleState.stop.stop ≠ exLifecycleState.stop := by
  decide

/-- C6 amended: `reset()` and `interrupt()` are idempotent (and, being total
state transformers, never raise), but `stop()` is not: whenever there is at
least one worker thread, each call appends `num_threads` more sentinels to
the index queue, so a second call changes the state again. -/
theorem C6_idempotence (s : State) (hn : 0 < s.num_threads) :
    s.reset.reset = s.reset ∧
    s.interrupt.interrupt = s.interrupt ∧
    s.stop.stop ≠ s.stop := by
  refine ⟨rfl, rfl, fun h => ?_⟩
  have hlen := congrArg (fun t => t.batch_ids_queue.length) h
  simp [State.stop] at hlen
  omega

/-- Witness for C6 at the one-worker example state. -/
theorem C6_idempotence_witness :
    (0 : Nat) < exLifecycleState.num_threads ∧
    exLifecycleState.stop.stop ≠ exLifecycleState.stop :=
  ⟨by decide, (C6_idempotence exLifecycleState (by decide)).2.2⟩

/-- C7: one `stop()` call pushes exactly `num_threads` sentinels (one per
worker) onto the index queue and changes nothing else; the join thread
(`wait_for_threads`) then pushes exactly one terminal sentinel onto the data
queue; and a running worker that pops a sentinel exits at once, popping it
but pushing nothing (the data queue and every other field are untouched). -/
theorem C7_stop_sentinel_protocol (s : State) (rest : List (Option (List Nat)))
    (hcs : s.coord_should_stop = false) (hint : s.interrupted = false) :
    s.stop.batch_ids_queue =
      s.batch_ids_queue ++ List.replicate s.num_threads none ∧
    (s.stop.batch_ids_queue.count none =
      s.batch_ids_queue.count none + s.num_threads) ∧
    s.stop = { s with batch_ids_queue := s.stop.batch_ids_queue } ∧
    s.wait_for_threads = { s with feed_dict_queue := s.feed_dict_queue ++ [none] } ∧
    State.fill_feed_dict_queue_step { s with batch_ids_queue := none :: rest } =
      ({ s with batch_ids_queue := rest }, WAct.exit) := by
  refine ⟨rfl, ?_, rfl, rfl, ?_⟩
  · simp [State.stop, List.count_replicate]
  · unfold State.fill_feed_dict_queue_step
    simp [hcs, hint]

/-- Witness for C7 at the one-worker example state with a sentinel at the
head of its index queue. -/
theorem C7_stop_sentinel_protocol_witness :
    exLifecycleState.coord_should_stop = false ∧
    exLifecycleState.interrupted = false ∧
    exLifecycleState.stop.batch_ids_queue =
      exLifecycleState.batch_ids_queue ++
        List.replicate exLifecycleState.num_threads none :=
  ⟨by decide, by decide,
    (C7_stop_sentinel_protocol exLifecycleState [] (by decide) (by decide)).1⟩

/-- `emitCurrent` is read-only: it returns its state unchanged. -/
theorem emitCurrent_fst (s : State) : s.emitCurrent.1 = s := by
  unfold State.emitCurrent
  rcases h : pyGet s.batches s.batch_index with _ | b <;> simp [h]
  rcases h2 : npTake s.index_array b with _ | ids <;> simp [h2]

/-- `reset_batches` never writes the feed dict. -/
theorem reset_batches_feed_dict (s : State) :
    s.reset_batches.feed_dict = s.feed_dict := by
  by_cases hs : s.shuffle <;> simp [State.reset_batches, State.shuffle_samples, hs]

/-- `reset_balanced_batches` never writes the feed dict. -/
theorem reset_balanced_batches_feed_dict (s : State) :
    s.reset_balanced_batches.feed_dict = s.feed_dict := by
  by_cases hs : s.shuffle <;>
    simp [State.reset_balanced_batches, State.shuffle_samples,
      State.make_balanced_batches, hs]

/-- Frame fact: a `next_batch_ids` call never writes the feed dict (neither
the cursor move, the plan reset, nor `stop()` touches it). -/
theorem next_batch_ids_feed_dict (s : State) :
    (s.next_batch_ids).1.feed_dict = s.feed_dict := by
  unfold State.next_batch_ids
  dsimp only
  split
  · split
    · rfl
    · rw [emitCurrent_fst]
      split <;>
        simp [reset_balanced_batches_feed_dict, reset_batches_feed_dict]
  · rw [emitCurrent_fst]

/-- C9: the producer loop's `labels` line reads the second feed-dict value
unconditionally — also when `balanced_classes` is false — so whenever the
feed dict has fewer than two values, no iteration of the producer can ever
enqueue a batch (the read raises before the `put`). -/
theorem C9_producer_needs_second_value (s : State) (ids : List Nat)
    (hlen : s.feed_dict.length < 2) :
    (s.fill_batch_ids_queue_step).2 ≠ PAct.put ids := by
  unfold State.fill_batch_ids_queue_step
  split
  · simp
  · rcases hnb : s.next_batch_ids with ⟨s', r⟩
    cases r with
    | sentinel => simp [hnb]
    | err => simp [hnb]
    | ids b =>
      have hfd : s'.feed_dict = s.feed_dict := by
        have h := next_batch_ids_feed_dict s
        rw [hnb] at h
        exact h
      have hnone : s'.feed_dict[1]? = none := by
        refine List.getElem?_eq_none ?_
        rw [hfd]
        omega
      simp [hnb, State.producerLabels, List.get?_eq_getElem?, hnone]

/-- Witness for C9: the single-key example pipeline can never enqueue the
batch `[0]` (nor any other). -/
theorem C9_producer_needs_second_value_witness :
    exOneKeyFlow.feed_dict.length < 2 ∧
    (exOneKeyFlow.fill_batch_ids_queue_step).2 ≠ PAct.put [0] :=
  ⟨by decide, C9_producer_needs_second_value exOneKeyFlow [0] (by decide)⟩

/-- C5: whenever two feed-dict keys map to values with different leading
dimensions, construction fails fast with the configuration error — it never
succeeds on such input (for every batch size, thread count, queue bound,
mode flags, RNG stream and balanced-plan stream, with the whole dataset in
use). -/
theorem C5_mismatched_lengths_fail (fd : FeedDict) (p q : String × DArr)
    (hp : p ∈ fd) (hq : q ∈ fd) (hne : p.2.length ≠ q.2.length)
    (bs nt mq : Nat) (sh co edo bal : Bool) (rng : List (List Nat))
    (bps : List (List (List Nat))) :
    feedDictFlowMk fd bs nt mq sh co edo bal none rng bps =
      .error .mismatchedLengths := by
  have hge : get_dict_first_element fd = .error .mismatchedLengths := by
    cases fd with
    | nil => cases hp
    | cons hd tl =>
      obtain ⟨k0, v0⟩ := hd
      simp only [get_dict_first_element]
      split
      · exfalso
        rename_i hall
        have hmem : ∀ r ∈ tl, r.2.length = v0.length := by
          intro r hr
          have := List.all_eq_true.mp hall r hr
          exact of_decide_eq_true this
        have hplen : p.2.length = v0.length := by
          rcases List.mem_cons.mp hp with h | h
          · rw [h]
          · exact hmem p h
        have hqlen : q.2.length = v0.length := by
          rcases List.mem_cons.mp hq with h | h
          · rw [h]
          · exact hmem q h
        exact hne (hplen.trans hqlen.symm)
      · rfl
  unfold feedDictFlowMk
  rw [hge]
  rfl

/-- Witness for C5: a two-key feed dict with one row under `X` and two rows
under `Y` is rejected at construction. -/
theorem C5_mismatched_lengths_fail_witness :
    ("X", [[(0 : Int)]]) ∈ exMismatchedFeedDict ∧
    ("Y", [[(1 : Int)], [2]]) ∈ exMismatchedFeedDict ∧
    feedDictFlowMk exMismatchedFeedDict 4 8 32 false false false false none [] [] =
      .error .mismatchedLengths :=
  ⟨by decide, by decide,
    C5_mismatched_lengths_fail exMismatchedFeedDict ("X", [[0]]) ("Y", [[1], [2]])
      (by decide) (by decide) (by decide) 4 8 32 false false false false [] []⟩

/-- C2 (the code bug, evaluated): for `n_samples=10`, `batch_size=4`,
`continuous=false`, shuffling disabled, the plan is
`[[0,1,2,3],[4,5,6,7],[8,9]]`, the producer enqueues the first two batches,
and on its third iteration — the short batch `[8, 9]` of length 2 — the
`assert(len(ids) == self.batch_size)` at data_flow.py:207 fails, so the third
batch is never enqueued and the claimed three-batches-then-sentinel stream is
never produced. -/
theorem C2_short_batch_crashes :
    feedDictFlowMk exFeedDict10 4 8 32 false false false false none [] [] =
      Except.ok exFlow10 ∧
    exFlow10.batches = [[0, 1, 2, 3], [4, 5, 6, 7], [8, 9]] ∧
    (runProducerIds exFlow10 3).2 =
      [BRes.ids [0, 1, 2, 3], BRes.ids [4, 5, 6, 7], BRes.ids [8, 9]] ∧
    (runProducerLoop exFlow10 3).2 =
      [PAct.put [0, 1, 2, 3], PAct.put [4, 5, 6, 7], PAct.crash] := by
  exact ⟨rfl, by decide, by decide, by decide⟩

/-- C1 counterexample: a continuous pipeline with plan `[[0], [1]]`
(`B = 2` batches per epoch) and `E = 1`: the first `E*B = 2` calls yield the
two batches, but the third call — the `(E*B)+1`-th — yields `[1]`, the LAST
batch of the plan again (the reset cursor `-1` indexes `batches[-1]`), not
the plan's first batch `[0]` as claimed. -/
theorem C1_counterexample :
    exContFlow.batches = [[0], [1]] ∧
    (runProducerIds exContFlow 3).2 =
      [BRes.ids [0], BRes.ids [1], BRes.ids [1]] ∧
    BRes.ids ([1] : List Nat) ≠ BRes.ids [0] := by
  exact ⟨by decide, by decide, by decide⟩

/-- `pyGet` at a non-negative index is plain list lookup. -/
theorem pyGet_ofNat (xs : List α) (j : Nat) : pyGet xs (j : Int) = xs.get? j := by
  simp [pyGet]

/-- `pyGet` at `-1` is the last element (Python negative indexing). -/
theorem pyGet_neg_one (xs : List α) (h : xs ≠ []) :
    pyGet xs (-1) = xs.get? (xs.length - 1) := by
  have hlen : 0 < xs.length := List.length_pos.mpr h
  have h0 : ¬ (0 : Int) ≤ -1 := by omega
  have h1 : (0 : Int) ≤ (xs.length : Int) + -1 := by omega
  simp only [pyGet, h0, if_false, h1, if_true]
  congr 1
  omega

/-- Two states differing only in the value written to `batch_index` are
equal once those values are. -/
theorem State.bi_congr (s : State) (a b : Int) (h : a = b) :
    ({ s with batch_index := a } : State) = { s with batch_index := b } := by
  rw [h]

/-- Writing `batch_index` back to itself is the identity. -/
theorem State.bi_eta (s : State) :
    ({ s with batch_index := s.batch_index } : State) = s := rfl

/-- When the cursor sits on a valid plan position `j`, `emitCurrent` leaves
the state alone and returns batch `j` mapped through the index array. -/
theorem emitCurrent_eq_emitOf (s : State) (j : Nat) (hj : j < s.batches.length)
    (h : pyGet s.batches s.batch_index = s.batches.get? j) :
    s.emitCurrent = (s, emitOf s.index_array (s.batches.getD j [])) := by
  have hD : s.batches.getD j [] = s.batches[j] := by
    rw [List.getD_eq_getElem?_getD, List.getElem?_eq_getElem hj]
    rfl
  unfold State.emitCurrent emitOf
  rw [h, List.get?_eq_getElem?, List.getElem?_eq_getElem hj, hD]
  rcases h2 : npTake s.index_array (s.batches[j]) with _ | ids <;> simp [h2]

/-- With shuffling disabled, a plan reset only rewinds the cursor. -/
theorem reset_batches_frame (s : State) (hs : s.shuffle = false) :
    s.reset_batches = { s with batch_index := -1 } := by
  simp [State.reset_batches, hs]

/-- With shuffling disabled, a balanced plan reset only rewinds the cursor. -/
theorem reset_balanced_batches_frame (s : State) (hs : s.shuffle = false) :
    s.reset_balanced_batches = { s with batch_index := -1 } := by
  simp [State.reset_balanced_batches, hs]

/-- `next_batch_ids` in the interior of the plan: when the cursor is about to
reach position `j < len(batches)`, the call advances the cursor to `j` and
emits plan batch `j` mapped through the index array. -/
theorem next_batch_ids_emit (s : State) (j : Nat) (hj : j < s.batches.length)
    (hidx : s.batch_index = (j : Int) - 1) :
    s.next_batch_ids = ({ s with batch_index := (j : Int) },
      emitOf s.index_array (s.batches.getD j [])) := by
  unfold State.next_batch_ids
  have hbi : s.batch_index + 1 = (j : Int) := by omega
  rw [hbi]
  have hcond : ¬ ((j : Int) = (s.batches.length : Int)) := by
    exact_mod_cast Nat.ne_of_lt hj
  rw [if_neg hcond]
  exact emitCurrent_eq_emitOf _ j hj (by rw [pyGet_ofNat])

/-- `emitCurrent` never returns the end-of-stream sentinel: only
`next_batch_ids`'s non-continuous branch does. -/
theorem emitCurrent_snd_ne_sentinel (s : State) :
    s.emitCurrent.2 ≠ BRes.sentinel := by
  unfold State.emitCurrent
  rcases h : pyGet s.batches s.batch_index with _ | b <;> simp [h]
  rcases h2 : npTake s.index_array b with _ | ids <;> simp [h2]

/-- A plan reset never flips the continuous flag. -/
theorem reset_batches_continuous (s : State) :
    s.reset_batches.continuous = s.continuous := by
  by_cases hs : s.shuffle <;> simp [State.reset_batches, State.shuffle_samples, hs]

/-- A balanced plan reset never flips the continuous flag. -/
theorem reset_balanced_batches_continuous (s : State) :
    s.reset_balanced_batches.continuous = s.continuous := by
  by_cases hs : s.shuffle <;>
    simp [State.reset_balanced_batches, State.shuffle_samples,
      State.make_balanced_batches, hs]

/-- `next_batch_ids` at the epoch boundary in continuous uniform mode with
shuffling disabled: the cursor passes the end, the plan is reset (cursor to
`-1`), and the batch emitted is `batches[-1]` — the LAST batch of the plan,
via Python negative indexing — not the first. -/
theorem next_batch_ids_wrap (s : State) (hc : s.continuous = true)
    (hsh : s.shuffle = false) (hbal : s.balanced_classes = false)
    (hidx : s.batch_index = (s.batches.length : Int) - 1) (hne : s.batches ≠ []) :
    s.next_batch_ids = ({ s with batch_index := -1 },
      emitOf s.index_array (s.batches.getD (s.batches.length - 1) [])) := by
  unfold State.next_batch_ids
  dsimp only
  have hbi : s.batch_index + 1 = (s.batches.length : Int) := by omega
  rw [hbi, if_pos rfl, if_neg (by simp [hc]), if_neg (by simp [hbal])]
  rw [reset_batches_frame { s with batch_index := (s.batches.length : Int) } hsh]
  have hlen : 0 < s.batches.length := List.length_pos.mpr hne
  exact emitCurrent_eq_emitOf _ (s.batches.length - 1)
    (by show s.batches.length - 1 < s.batches.length; omega)
    (pyGet_neg_one s.batches hne)

/-- In continuous mode a single `next_batch_ids` call never returns the
`False` end-of-stream sentinel, and the mode flag survives the call. -/
theorem next_batch_ids_continuous_no_sentinel (s : State)
    (hc : s.continuous = true) :
    (s.next_batch_ids).2 ≠ BRes.sentinel ∧
    (s.next_batch_ids).1.continuous = true := by
  unfold State.next_batch_ids
  dsimp only
  split
  · rw [if_neg (by simp [hc])]
    split
    · constructor
      · exact emitCurrent_snd_ne_sentinel _
      · rw [emitCurrent_fst, reset_balanced_batches_continuous]
        exact hc
    · constructor
      · exact emitCurrent_snd_ne_sentinel _
      · rw [emitCurrent_fst, reset_batches_continuous]
        exact hc
  · constructor
    · exact emitCurrent_snd_ne_sentinel _
    · rw [emitCurrent_fst]
      exact hc

/-- Continuous mode never emits the sentinel, over any number of calls. -/
theorem runProducerIds_continuous_no_sentinel (s : State)
    (hc : s.continuous = true) (k : Nat) :
    BRes.sentinel ∉ (runProducerIds s k).2 ∧
    (runProducerIds s k).1.continuous = true := by
  induction k generalizing s with
  | zero => simp [runProducerIds, hc]
  | succ n ih =>
    have h1 := next_batch_ids_continuous_no_sentinel s hc
    rcases hnb : s.next_batch_ids with ⟨s', r⟩
    rw [hnb] at h1
    obtain ⟨ihm, ihc⟩ := ih s' h1.2
    simp only [runProducerIds, hnb]
    refine ⟨?_, ihc⟩
    intro hmem
    rcases List.mem_cons.mp hmem with h | h
    · exact h1.1 h.symm
    · exact ihm h

/-- Running the producer splits along sums of call counts. -/
theorem runProducerIds_add (m n : Nat) (s : State) :
    runProducerIds s (m + n) =
      ((runProducerIds (runProducerIds s m).1 n).1,
       (runProducerIds s m).2 ++ (runProducerIds (runProducerIds s m).1 n).2) := by
  induction m generalizing s with
  | zero => simp [runProducerIds]
  | succ m ih =>
    have hsum : m + 1 + n = (m + n) + 1 := by omega
    rw [hsum]
    rcases hnb : s.next_batch_ids with ⟨s', r⟩
    simp only [runProducerIds, hnb, ih s']
    rfl

/-- Running the producer across the interior of the plan, from the position
just before batch `j` through batch `j + n - 1`: the plan batches come out in
order, each mapped through the index array, and the cursor lands on the last
position served. -/
theorem runProducerIds_seg (n : Nat) : ∀ (s : State) (j : Nat),
    s.batch_index = (j : Int) - 1 → j + n ≤ s.batches.length →
    (runProducerIds s n).1 = { s with batch_index := (j : Int) + n - 1 } ∧
    (runProducerIds s n).2 =
      ((s.batches.drop j).take n).map (emitOf s.index_array) := by
  induction n with
  | zero =>
    intro s j hidx hle
    refine ⟨?_, by simp [runProducerIds]⟩
    exact Eq.trans (State.bi_eta s).symm (State.bi_congr s _ _ (by omega))
  | succ n ih =>
    intro s j hidx hle
    have hj : j < s.batches.length := by omega
    have hstep := next_batch_ids_emit s j hj hidx
    have hidx' : State.batch_index { s with batch_index := (j : Int) } =
        ((j + 1 : Nat) : Int) - 1 := by
      show (j : Int) = ((j + 1 : Nat) : Int) - 1
      push_cast
      ring
    have hle' : (j + 1) + n ≤
        (State.batches { s with batch_index := (j : Int) }).length := by
      show (j + 1) + n ≤ s.batches.length
      omega
    obtain ⟨ih1, ih2⟩ := ih { s with batch_index := (j : Int) } (j + 1) hidx' hle'
    have hdrop : s.batches.drop j = s.batches[j] :: s.batches.drop (j + 1) :=
      List.drop_eq_getElem_cons hj
    have hD : s.batches.getD j [] = s.batches[j] := by
      rw [List.getD_eq_getElem?_getD, List.getElem?_eq_getElem hj]
      rfl
    constructor
    · simp only [runProducerIds, hstep, ih1]
      exact State.bi_congr s _ _ (by push_cast; ring)
    · simp only [runProducerIds, hstep, ih2]
      simp only [hdrop, List.take_succ_cons, List.map_cons, hD]

/-- C1 amended: in continuous uniform mode (shuffling disabled), starting
from a freshly reset cursor over a nonempty plan of `B` batches, (a) no
number of `next_batch_ids` calls ever yields the end-of-stream sentinel —
in particular the first `E*B` calls never do — and (b) the first `B` calls
serve the plan in order, the `(B+1)`-th call serves the plan's LAST batch
again (the reset cursor `-1` indexes `batches[-1]`), and the new epoch's
first batch only arrives with call `B+2`. -/
theorem C1_continuous_wraps_to_last_batch (s : State) (hc : s.continuous = true)
    (hsh : s.shuffle = false) (hbal : s.balanced_classes = false)
    (hidx : s.batch_index = -1) (hne : s.batches ≠ []) :
    (∀ k, BRes.sentinel ∉ (runProducerIds s k).2) ∧
    (runProducerIds s (s.batches.length + 2)).2 =
      s.batches.map (emitOf s.index_array) ++
        [emitOf s.index_array (s.batches.getD (s.batches.length - 1) []),
         emitOf s.index_array (s.batches.getD 0 [])] := by
  have hlen : 0 < s.batches.length := List.length_pos.mpr hne
  refine ⟨fun k => (runProducerIds_continuous_no_sentinel s hc k).1, ?_⟩
  obtain ⟨h1, h2⟩ := runProducerIds_seg s.batches.length s 0 (by omega) (by omega)
  rw [runProducerIds_add s.batches.length 2 s, h1, h2]
  have hwrap := next_batch_ids_wrap
    { s with batch_index := ((0 : Nat) : Int) + s.batches.length - 1 }
    hc hsh hbal
    (by
      show ((0 : Nat) : Int) + s.batches.length - 1 = (s.batches.length : Int) - 1
      omega)
    hne
  have hfirst := next_batch_ids_emit
    { s with batch_index := (-1 : Int) } 0 hlen
    (by show (-1 : Int) = ((0 : Nat) : Int) - 1; decide)
  simp only [runProducerIds, hwrap, hfirst]
  simp

/-- Witness for C1 (amended) at the continuous two-batch example: five calls
produce `[0]`, `[1]`, then `[1]` again (the wrapped last batch), then `[0]`. -/
theorem C1_continuous_wraps_to_last_batch_witness :
    exContFlow.continuous = true ∧ exContFlow.batches ≠ [] ∧
    (runProducerIds exContFlow (exContFlow.batches.length + 2)).2 =
      exContFlow.batches.map (emitOf exContFlow.index_array) ++
        [emitOf exContFlow.index_array
          (exContFlow.batches.getD (exContFlow.batches.length - 1) []),
         emitOf exContFlow.index_array (exContFlow.batches.getD 0 [])] :=
  ⟨by decide, by decide,
    (C1_continuous_wraps_to_last_batch exContFlow (by decide) (by decide)
      (by decide) (by decide) (by decide)).2⟩

/-- `emitCurrent` outputs depend only on the plan, the index array and the
cursor. -/
theorem emitCurrent_congr (s₁ s₂ : State) (hb : s₁.batches = s₂.batches)
    (hia : s₁.index_array = s₂.index_array)
    (hbi : s₁.batch_index = s₂.batch_index) :
    (s₁.emitCurrent).2 = (s₂.emitCurrent).2 := by
  unfold State.emitCurrent
  rw [hb, hia, hbi]
  rcases h : pyGet s₂.batches s₂.batch_index with _ | b <;> simp [h]
  rcases h2 : npTake s₂.index_array b with _ | ids <;> simp [h2]

/-- Bundled congruence for the emitting tail of `next_batch_ids`: equal
producer-relevant fields give equal outputs, and those fields survive. -/
theorem emit_pair_congr (t₁ t₂ : State) (hb : t₁.batches = t₂.batches)
    (hia : t₁.index_array = t₂.index_array) (hbi : t₁.batch_index = t₂.batch_index)
    (hsh₁ : t₁.shuffle = false) (hsh₂ : t₂.shuffle = false)
    (hc : t₁.continuous = t₂.continuous)
    (hbal : t₁.balanced_classes = t₂.balanced_classes) :
    (t₁.emitCurrent).2 = (t₂.emitCurrent).2 ∧
    (t₁.emitCurrent).1.shuffle = false ∧
    (t₂.emitCurrent).1.shuffle = false ∧
    (t₁.emitCurrent).1.batches = (t₂.emitCurrent).1.batches ∧
    (t₁.emitCurrent).1.index_array = (t₂.emitCurrent).1.index_array ∧
    (t₁.emitCurrent).1.batch_index = (t₂.emitCurrent).1.batch_index ∧
    (t₁.emitCurrent).1.continuous = (t₂.emitCurrent).1.continuous ∧
    (t₁.emitCurrent).1.balanced_classes = (t₂.emitCurrent).1.balanced_classes := by
  simp only [emitCurrent_fst]
  exact ⟨emitCurrent_congr t₁ t₂ hb hia hbi, hsh₁, hsh₂, hb, hia, hbi, hc, hbal⟩

/-- `emit_pair_congr` precomposed with the balanced plan reset (shuffling
disabled, so the reset only rewinds the cursor). -/
theorem reset_balanced_then_emit_congr (t₁ t₂ : State)
    (hsh₁ : t₁.shuffle = false) (hsh₂ : t₂.shuffle = false)
    (hb : t₁.batches = t₂.batches) (hia : t₁.index_array = t₂.index_array)
    (hc : t₁.continuous = t₂.continuous)
    (hbal : t₁.balanced_classes = t₂.balanced_classes) :
    ((t₁.reset_balanced_batches).emitCurrent).2 =
      ((t₂.reset_balanced_batches).emitCurrent).2 ∧
    ((t₁.reset_balanced_batches).emitCurrent).1.shuffle = false ∧
    ((t₂.reset_balanced_batches).emitCurrent).1.shuffle = false ∧
    ((t₁.reset_balanced_batches).emitCurrent).1.batches =
      ((t₂.reset_balanced_batches).emitCurrent).1.batches ∧
    ((t₁.reset_balanced_batches).emitCurrent).1.index_array =
      ((t₂.reset_balanced_batches).emitCurrent).1.index_array ∧
    ((t₁.reset_balanced_batches).emitCurrent).1.batch_index =
      ((t₂.reset_balanced_batches).emitCurrent).1.batch_index ∧
    ((t₁.reset_balanced_batches).emitCurrent).1.continuous =
      ((t₂.reset_balanced_batches).emitCurrent).1.continuous ∧
    ((t₁.reset_balanced_batches).emitCurrent).1.balanced_classes =
      ((t₂.reset_balanced_batches).emitCurrent).1.balanced_classes := by
  rw [reset_balanced_batches_frame t₁ hsh₁, reset_balanced_batches_frame t₂ hsh₂]
  refine emit_pair_congr _ _ ?_ ?_ ?_ ?_ ?_ ?_ ?_
  exacts [hb, hia, rfl, hsh₁, hsh₂, hc, hbal]

/-- `emit_pair_congr` precomposed with the uniform plan reset (shuffling
disabled, so the reset only rewinds the cursor). -/
theorem reset_then_emit_congr (t₁ t₂ : State)
    (hsh₁ : t₁.shuffle = false) (hsh₂ : t₂.shuffle = false)
    (hb : t₁.batches = t₂.batches) (hia : t₁.index_array = t₂.index_array)
    (hc : t₁.continuous = t₂.continuous)
    (hbal : t₁.balanced_classes = t₂.balanced_classes) :
    ((t₁.reset_batches).emitCurrent).2 = ((t₂.reset_batches).emitCurrent).2 ∧
    ((t₁.reset_batches).emitCurrent).1.shuffle = false ∧
    ((t₂.reset_batches).emitCurrent).1.shuffle = false ∧
    ((t₁.reset_batches).emitCurrent).1.batches =
      ((t₂.reset_batches).emitCurrent).1.batches ∧
    ((t₁.reset_batches).emitCurrent).1.index_array =
      ((t₂.reset_batches).emitCurrent).1.index_array ∧
    ((t₁.reset_batches).emitCurrent).1.batch_index =
      ((t₂.reset_batches).emitCurrent).1.batch_index ∧
    ((t₁.reset_batches).emitCurrent).1.continuous =
      ((t₂.reset_batches).emitCurrent).1.continuous ∧
    ((t₁.reset_batches).emitCurrent).1.balanced_classes =
      ((t₂.reset_batches).emitCurrent).1.balanced_classes := by
  rw [reset_batches_frame t₁ hsh₁, reset_batches_frame t₂ hsh₂]
  refine emit_pair_congr _ _ ?_ ?_ ?_ ?_ ?_ ?_ ?_
  exacts [hb, hia, rfl, hsh₁, hsh₂, hc, hbal]

/-- Congruence for one `next_batch_ids` call: two states that agree on the
producer-relevant fields (plan, index array, cursor, mode flags), both with
shuffling disabled, produce the same output, and keep agreeing. -/
theorem next_batch_ids_congr (s₁ s₂ : State)
    (hsh₁ : s₁.shuffle = false) (hsh₂ : s₂.shuffle = false)
    (hb : s₁.batches = s₂.batches) (hia : s₁.index_array = s₂.index_array)
    (hbi : s₁.batch_index = s₂.batch_index) (hc : s₁.continuous = s₂.continuous)
    (hbal : s₁.balanced_classes = s₂.balanced_classes) :
    (s₁.next_batch_ids).2 = (s₂.next_batch_ids).2 ∧
    (s₁.next_batch_ids).1.shuffle = false ∧
    (s₂.next_batch_ids).1.shuffle = false ∧
    (s₁.next_batch_ids).1.batches = (s₂.next_batch_ids).1.batches ∧
    (s₁.next_batch_ids).1.index_array = (s₂.next_batch_ids).1.index_array ∧
    (s₁.next_batch_ids).1.batch_index = (s₂.next_batch_ids).1.batch_index ∧
    (s₁.next_batch_ids).1.continuous = (s₂.next_batch_ids).1.continuous ∧
    (s₁.next_batch_ids).1.balanced_classes =
      (s₂.next_batch_ids).1.balanced_classes := by
  unfold State.next_batch_ids
  dsimp only
  rw [hbi, hb, hc, hbal]
  by_cases hcond : s₂.batch_index + 1 = (s₂.batches.length : Int)
  · rw [if_pos hcond, if_pos hcond]
    by_cases hcont : s₂.continuous
    · have hnc : ¬ ((!s₂.continuous) = true) := by simp [hcont]
      rw [if_neg hnc, if_neg hnc]
      by_cases hbal2 : s₂.balanced_classes
      · rw [if_pos hbal2, if_pos hbal2]
        refine reset_balanced_then_emit_congr _ _ ?_ ?_ ?_ ?_ ?_ ?_
        exacts [hsh₁, hsh₂, rfl, hia, rfl, rfl]
      · rw [if_neg hbal2, if_neg hbal2]
        refine reset_then_emit_congr _ _ ?_ ?_ ?_ ?_ ?_ ?_
        exacts [hsh₁, hsh₂, rfl, hia, rfl, rfl]
    · have hpc : (!s₂.continuous) = true := by simp [hcont]
      rw [if_pos hpc, if_pos hpc]
      exact ⟨rfl, hsh₁, hsh₂, rfl, hia, rfl, rfl, rfl⟩
  · rw [if_neg hcond, if_neg hcond]
    refine emit_pair_congr _ _ ?_ ?_ ?_ ?_ ?_ ?_ ?_
    exacts [rfl, hia, rfl, hsh₁, hsh₂, rfl, rfl]

/-- Run-level congruence: with shuffling disabled, equal plans, index arrays,
cursors and mode flags give identical output sequences, over any number of
`next_batch_ids` calls. -/
theorem runProducerIds_congr (k : Nat) : ∀ (s₁ s₂ : State),
    s₁.shuffle = false → s₂.shuffle = false →
    s₁.batches = s₂.batches → s₁.index_array = s₂.index_array →
    s₁.batch_index = s₂.batch_index → s₁.continuous = s₂.continuous →
    s₁.balanced_classes = s₂.balanced_classes →
    (runProducerIds s₁ k).2 = (runProducerIds s₂ k).2 := by
  induction k with
  | zero => intro s₁ s₂ _ _ _ _ _ _ _; simp [runProducerIds]
  | succ n ih =>
    intro s₁ s₂ hsh₁ hsh₂ hb hia hbi hc hbal
    obtain ⟨ho, h1, h2, h3, h4, h5, h6, h7⟩ :=
      next_batch_ids_congr s₁ s₂ hsh₁ hsh₂ hb hia hbi hc hbal
    rcases e₁ : s₁.next_batch_ids with ⟨t₁, r₁⟩
    rcases e₂ : s₂.next_batch_ids with ⟨t₂, r₂⟩
    simp only [e₁, e₂] at ho h1 h2 h3 h4 h5 h6 h7
    simp only [runProducerIds, e₁, e₂]
    rw [ho, ih t₁ t₂ h1 h2 h3 h4 h5 h6 h7]

/-- C8: with shuffling disabled, batch generation is deterministic across
restarts — `reset_batches` leaves the plan and the sample index array
unchanged and rewinds the cursor to `-1`; `start()` touches neither plan,
index array nor cursor; and after `reset()` any two pipeline states with the
same plan, index array and mode flags (e.g. the same instance on its previous
pass) produce identical sequences of index batches. -/
theorem C8_reset_replays_identically :
    (∀ s : State, s.shuffle = false →
        s.reset_batches.batches = s.batches ∧
        s.reset_batches.index_array = s.index_array ∧
        s.reset_batches.batch_index = -1) ∧
    (∀ (s : State) (rs : Bool),
        (State.start rs s).batches = s.batches ∧
        (State.start rs s).index_array = s.index_array ∧
        (State.start rs s).batch_index = s.batch_index) ∧
    (∀ (s₁ s₂ : State) (k : Nat),
        s₁.shuffle = false → s₂.shuffle = false →
        s₁.batches = s₂.batches → s₁.index_array = s₂.index_array →
        s₁.continuous = s₂.continuous → s₁.balanced_classes = s₂.balanced_classes →
        (runProducerIds s₁.reset k).2 = (runProducerIds s₂.reset k).2) := by
  refine ⟨?_, ?_, ?_⟩
  · intro s hs
    rw [reset_batches_frame s hs]
    exact ⟨rfl, rfl, rfl⟩
  · intro s rs
    cases rs <;> simp [State.start, State.clear_queues]
  · intro s₁ s₂ k hsh₁ hsh₂ hb hia hc hbal
    exact runProducerIds_congr k s₁.reset s₂.reset hsh₁ hsh₂ hb hia rfl hc hbal

/-- Witness for C8: the end-of-stream example pipeline, and the same pipeline
after unrelated churn (cursor moved, interrupt raised, queue noise), replay
the same four index batches after `reset()`. -/
theorem C8_reset_replays_identically_witness :
    exFlow10.batches = exReplayAlt.batches ∧
    (runProducerIds exFlow10.reset 4).2 = (runProducerIds exReplayAlt.reset 4).2 :=
  ⟨by decide,
    (C8_reset_replays_identically.2.2 exFlow10 exReplayAlt 4 (by decide)
      (by decide) (by decide) (by decide) (by decide) (by decide))⟩

end DataFlowPy
